import Mathlib

/-!
Formal model of the ESP8266 OLED internet-radio sketch
(`src/esp8266_oled_debug_scan.ino`).

The sketch is a single-threaded Arduino program: `setup()` runs once and
then `loop()` is invoked repeatedly.  `loop()` consists of four sequential
blocks: the `WIFI_CONNECTING` branch, the `TIME_SYNC` branch, the periodic
Wi-Fi poll check, and the `READY` branch (stream pump supervision followed
by the throttled `drawReady` render).

We embed the program shallowly: the global variables (including the three
`static` locals inside `loop`) form a state record `SketchState`; one
invocation of `loop` is a pure function from an environment record
`TickEnv` (the values the hardware returns during that tick: `millis()`,
`WiFi.status()`, `time(nullptr)`, the result of `mp3->loop()`, …) and a
pre-state to a post-state together with a list of observable `Event`s in
the order the corresponding side effects are issued by the code.

Modelling conventions:
  * `millis()` is a 32-bit monotone millisecond clock.  We keep timestamps
    as unbounded `Nat` and model the code's `uint32_t` subtraction
    `millis() - t0` as `(now - t0) % 2^32` (`elapsed`), which agrees with
    the machine arithmetic whenever the clock is monotone (`now ≥ t0`).
  * a single tick is treated as instantaneous: every call to `millis()`
    within one invocation of `loop` returns the same value `env.now`
    (the calls are microseconds apart in the real program; the 250 ms
    settle `delay` in the join-restart path is likewise absorbed into the
    tick timestamp).
  * the MP3 generator pointer `mp3` is modelled as `Option Bool`:
    `none` is the null pointer, `some r` an allocated generator whose
    `isRunning()` is `r`.  `AudioGeneratorMP3::stop` clears the running
    flag but leaves the pointer allocated.
  * the ICY metadata callback `MDCallback` is modelled as a separate pure
    transformer on the state; the stream pipeline may invoke it between
    ticks (or re-entrantly from within the pump — it only writes plain
    data fields, so the effect is the same).
-/

namespace Radio

/-- Source line 48: `enum UiState { BOOTING, WIFI_CONNECTING, TIME_SYNC, READY }`. -/
inductive UiState
  | BOOTING
  | WIFI_CONNECTING
  | TIME_SYNC
  | READY
deriving DecidableEq, Repr

/-- The two boot-style screens drawn by `drawBoot`, identified by the
subtitle passed at each call site ( `"Wi-Fi connecting…"` / `"Sync time…"` ). -/
inductive BootScreen
  | wifiConnecting
  | syncTime
deriving DecidableEq, Repr

/-- Observable side effects issued by one invocation of `loop`, in program
order.  `drawBootFrame`/`drawReadyFrame` are calls to `display.display()`
(frame presentations); `wifiBeginJoin` is `WiFi.begin`, `wifiDisconnect`
is `WiFi.disconnect(true)`, `configTimeEv` is `configTime`, `streamStart`
is a call to `startStream`, `mp3Stop` is `mp3->stop()`, and `mp3Pump` is a
call to `mp3->loop()`.  A ready frame carries the status line it shows. -/
inductive Event
  | drawBootFrame (screen : BootScreen)
  | wifiBeginJoin
  | wifiDisconnect
  | configTimeEv
  | streamStart
  | mp3Stop
  | mp3Pump
  | drawReadyFrame (statusLine : String)
deriving DecidableEq, Repr

/-- Values the hardware / libraries return during one invocation of
`loop`.  `wifiConn1` is the `WiFi.status() == WL_CONNECTED` read at
line 242, `wifiConn2` the one at line 271; `epochTime` is `time(nullptr)`;
`pumpOk` the return value of `mp3->loop()`; `beginRunning` whether
`mp3->begin` leaves the fresh generator running; `ipAddr` is
`WiFi.localIP().toString()`. -/
structure TickEnv where
  now : Nat
  wifiConn1 : Bool
  wifiConn2 : Bool
  epochTime : Int
  pumpOk : Bool
  beginRunning : Bool
  ipAddr : String

/-- The sketch's mutable globals (source lines 49–64, 69) together with
the three `static` locals of `loop`: `lastBootDrawW` (line 237, in the
`WIFI_CONNECTING` branch), `lastBootDrawT` (line 258, in the `TIME_SYNC`
branch) and `lastTry` (line 285, in the `READY` branch). -/
structure SketchState where
  uiState : UiState
  lastTimeDraw : Nat
  lastWifiPoll : Nat
  connectStart : Nat
  haveIpSplash : Bool
  ipSplashSince : Nat
  ipStr : String
  icyName : String
  icyTitle : String
  lastMetaTs : Nat
  showMeta : Bool
  spinnerIdx : Nat
  mp3 : Option Bool
  lastBootDrawW : Nat
  lastBootDrawT : Nat
  lastTry : Nat
deriving DecidableEq, Repr

/-- Timer constants, source lines 37–40 and the literals at lines 238,
250, 259, 286. -/
def TIME_REFRESH_MS : Nat := 250
def WIFI_POLL_MS : Nat := 1000
def META_SHOW_MS : Nat := 6000
def WIFI_TIMEOUT_MS : Nat := 20000
def BOOT_DRAW_W_MS : Nat := 150
def BOOT_DRAW_T_MS : Nat := 250
def STREAM_RETRY_MS : Nat := 3000

/-- The code's `uint32_t` expression `millis() - t0` for a monotone
millisecond clock: timestamps are kept as unbounded naturals and the
32-bit wraparound subtraction is `(now - t0) % 2^32`. -/
def elapsed (now t0 : Nat) : Nat := (now - t0) % 4294967296

/-- Source lines 131–134: `timeIsSet` — `time(nullptr) > 1700000000`. -/
def timeIsSet (epochTime : Int) : Bool := epochTime > 1700000000

/-- Source lines 93–101: the bar count computed by `drawWifiBars` from the
RSSI and the association flag. -/
def drawWifiBars (rssi : Int) (connected : Bool) : Nat :=
  if connected then
    if rssi > -55 then 4
    else if rssi > -65 then 3
    else if rssi > -75 then 2
    else if rssi > -85 then 1
    else 0
  else 0

/-- Source line 66: `two` — zero-pad a sub-10 value to two digits. -/
def two (v : Int) : String :=
  if v < 10 then "0" ++ toString v else toString v

/-- The state effect of one `drawBoot` call (lines 115–129): the spinner
index advances by one modulo 4; everything else it touches is the display. -/
def drawBootStep (s : SketchState) : SketchState :=
  { s with spinnerIdx := (s.spinnerIdx + 1) % 4 }

/-- Source lines 189–193: `connectWifi` — issue `WiFi.begin` and reset the
attempt timer `connectStart` to the current time. -/
def connectWifi (now : Nat) (s : SketchState) : SketchState × List Event :=
  ({ s with connectStart := now }, [Event.wifiBeginJoin])

/-- Source lines 195–212: `startStream` — tear down any previous pipeline
objects and allocate fresh ones; afterwards `mp3` is non-null and its
running flag is whatever `mp3->begin` produced.  Metadata fields are not
touched. -/
def startStream (beginRunning : Bool) (s : SketchState) : SketchState × List Event :=
  ({ s with mp3 := some beginRunning }, [Event.streamStart])

/-- ASCII lower-casing of one character, as Arduino `tolower` does. -/
def asciiLowerChar (c : Char) : Char :=
  if 65 ≤ c.toNat ∧ c.toNat ≤ 90 then Char.ofNat (c.toNat + 32) else c

/-- Arduino `String::equalsIgnoreCase`: byte-wise comparison after ASCII
case folding. -/
def equalsIgnoreCase (a b : String) : Bool :=
  a.toList.map asciiLowerChar == b.toList.map asciiLowerChar

/-- Source lines 78–91: `MDCallback` — on a `StreamTitle` or `StreamName`
notification (compared case-insensitively) store the text, set `showMeta`
and stamp `lastMetaTs := millis()`; other kinds are ignored. -/
def MDCallback (s : SketchState) (typ str : String) (now : Nat) : SketchState :=
  if equalsIgnoreCase typ "StreamTitle" then
    { s with icyTitle := str, showMeta := true, lastMetaTs := now }
  else if equalsIgnoreCase typ "StreamName" then
    { s with icyName := str, showMeta := true, lastMetaTs := now }
  else s

/-- The metadata text drawn by `drawReady` (lines 175–178): the title if
non-empty, else the station name, truncated to 20 characters, prefixed
with the note symbol. -/
def metaLine (s : SketchState) : String :=
  let line := if s.icyTitle.length ≠ 0 then s.icyTitle else s.icyName
  let line := if line.length > 20 then String.take line 20 else line
  "♪ " ++ line

/-- Source lines 172–184: the status line of the `drawReady` screen.
Metadata is shown only while the generator exists, is running, `showMeta`
is set and the arrival is younger than `META_SHOW_MS`; otherwise the
generic `playing` / `stopped` label. -/
def readyStatusLine (s : SketchState) (now : Nat) : String :=
  match s.mp3 with
  | some true =>
    if s.showMeta = true ∧ elapsed now s.lastMetaTs < META_SHOW_MS then
      metaLine s
    else "STREAM: playing"
  | _ => "STREAM: stopped"

/-- The throttled `drawBoot` call at the head of the `WIFI_CONNECTING`
branch (lines 237–241): redraw only when more than `BOOT_DRAW_W_MS` has
elapsed since the branch's own `static` timestamp. -/
def bootThrottleW (now : Nat) (s : SketchState) : SketchState × List Event :=
  if elapsed now s.lastBootDrawW > BOOT_DRAW_W_MS then
    (drawBootStep { s with lastBootDrawW := now },
     [Event.drawBootFrame BootScreen.wifiConnecting])
  else (s, [])

/-- The throttled `drawBoot` call at the head of the `TIME_SYNC` branch
(lines 258–262). -/
def bootThrottleT (now : Nat) (s : SketchState) : SketchState × List Event :=
  if elapsed now s.lastBootDrawT > BOOT_DRAW_T_MS then
    (drawBootStep { s with lastBootDrawT := now },
     [Event.drawBootFrame BootScreen.syncTime])
  else (s, [])

/-- Source lines 236–255: the `WIFI_CONNECTING` branch of `loop`.
Throttled boot redraw; then either the transition to `TIME_SYNC` (capture
the address, draw the sync screen directly, issue `configTime`), or — on
attempt timeout while still unassociated — force-disconnect, settle, and
restart the join via `connectWifi`. -/
def branchConnecting (env : TickEnv) (s : SketchState) : SketchState × List Event :=
  if s.uiState = UiState.WIFI_CONNECTING then
    let d := bootThrottleW env.now s
    if env.wifiConn1 then
      let s2 := { d.1 with
        ipStr := env.ipAddr
        haveIpSplash := true
        ipSplashSince := env.now
        uiState := UiState.TIME_SYNC }
      (drawBootStep s2,
       d.2 ++ [Event.drawBootFrame BootScreen.syncTime, Event.configTimeEv])
    else if elapsed env.now s.connectStart > WIFI_TIMEOUT_MS then
      let cw := connectWifi env.now d.1
      (cw.1, d.2 ++ [Event.wifiDisconnect] ++ cw.2)
    else d
  else (s, [])

/-- Source lines 257–267: the `TIME_SYNC` branch of `loop`.  Throttled
story-board redraw; once `timeIsSet` reports a plausible wall-clock time,
transition to `READY` and start the stream session. -/
def branchTimeSync (env : TickEnv) (s : SketchState) : SketchState × List Event :=
  if s.uiState = UiState.TIME_SYNC then
    let d := bootThrottleT env.now s
    if timeIsSet env.epochTime then
      let ss := startStream env.beginRunning { d.1 with uiState := UiState.READY }
      (ss.1, d.2 ++ ss.2)
    else d
  else (s, [])

/-- Source lines 269–276: the fixed-interval network poll.  When due, the
poll timestamp is refreshed; if the phase is `READY` and the link is not
associated, the phase falls back to `WIFI_CONNECTING`, the stream session
is stopped (if the generator exists), and a fresh join is issued. -/
def wifiPollCheck (env : TickEnv) (s : SketchState) : SketchState × List Event :=
  if elapsed env.now s.lastWifiPoll > WIFI_POLL_MS then
    let s1 := { s with lastWifiPoll := env.now }
    if s1.uiState = UiState.READY ∧ env.wifiConn2 = false then
      let s2 := { s1 with uiState := UiState.WIFI_CONNECTING }
      let stopEv : List Event := if s2.mp3.isSome then [Event.mp3Stop] else []
      let s3 := if s2.mp3.isSome then { s2 with mp3 := some false } else s2
      let cw := connectWifi env.now s3
      (cw.1, stopEv ++ cw.2)
    else (s1, [])
  else (s, [])

/-- Source lines 279–291: the stream supervision step of the `READY`
branch.  A null generator is left alone; a running generator is pumped
once and stopped on pump failure; a stopped generator is restarted via
`startStream` once the retry cooldown since the `static` `lastTry`
timestamp has elapsed, stamping `lastTry` with the current time. -/
def streamSupervise (env : TickEnv) (s : SketchState) : SketchState × List Event :=
  match s.mp3 with
  | none => (s, [])
  | some running =>
    if running then
      if env.pumpOk then (s, [Event.mp3Pump])
      else ({ s with mp3 := some false }, [Event.mp3Pump, Event.mp3Stop])
    else
      if elapsed env.now s.lastTry > STREAM_RETRY_MS then
        let ss := startStream env.beginRunning { s with lastTry := env.now }
        (ss.1, ss.2)
      else (s, [])

/-- Source lines 278–297: the `READY` branch of `loop` — stream
supervision first, then the throttled `drawReady` render. -/
def branchReady (env : TickEnv) (s : SketchState) : SketchState × List Event :=
  if s.uiState = UiState.READY then
    let pr := streamSupervise env s
    if elapsed env.now pr.1.lastTimeDraw > TIME_REFRESH_MS then
      ({ pr.1 with lastTimeDraw := env.now },
       pr.2 ++ [Event.drawReadyFrame (readyStatusLine pr.1 env.now)])
    else pr
  else (s, [])

/-- One invocation of `loop` (source lines 235–298): the four blocks run
in program order, each seeing the state left by the previous one; the
event list is the concatenation of their effects in order. -/
def loop (env : TickEnv) (s : SketchState) : SketchState × List Event :=
  let a := branchConnecting env s
  let b := branchTimeSync env a.1
  let c := wifiPollCheck env b.1
  let d := branchReady env c.1
  (d.1, a.2 ++ b.2 ++ c.2 ++ d.2)

/-- The global variables at power-on (their C++ initialisers, lines
49–64, 69, plus the zero-initialised `static` locals of `loop`). -/
def initialState : SketchState where
  uiState := UiState.BOOTING
  lastTimeDraw := 0
  lastWifiPoll := 0
  connectStart := 0
  haveIpSplash := false
  ipSplashSince := 0
  ipStr := ""
  icyName := ""
  icyTitle := ""
  lastMetaTs := 0
  showMeta := false
  spinnerIdx := 0
  mp3 := none
  lastBootDrawW := 0
  lastBootDrawT := 0
  lastTry := 0

/-- Source lines 214–233: the state after a successful `setup()` (display
initialised): the phase is advanced from `BOOTING` to `WIFI_CONNECTING`,
one boot frame is drawn, and `connectWifi` is issued at time `now`. -/
def setupState (now : Nat) : SketchState :=
  (connectWifi now (drawBootStep { initialState with uiState := UiState.WIFI_CONNECTING })).1

/-- Run a list of ticks from a state (folding `loop`). -/
def runTicks (envs : List TickEnv) (s : SketchState) : SketchState :=
  envs.foldl (fun t e => (loop e t).1) s

/-- The stream-pump events. -/
def isPump : Event → Bool
  | Event.mp3Pump => true
  | _ => false

/-- The `drawReady` frame presentations. -/
def isReadyFrame : Event → Bool
  | Event.drawReadyFrame _ => true
  | _ => false

/-- The collaborator commands issued as phase-transition side effects:
`WiFi.disconnect`, `WiFi.begin` and `configTime`. -/
def isTransitionCmd : Event → Bool
  | Event.wifiDisconnect => true
  | Event.wifiBeginJoin => true
  | Event.configTimeEv => true
  | _ => false

/-- `eventsOrdered p q l`: every `p`-event of `l` occurs strictly before
every `q`-event (the list splits into a `q`-free prefix holding all the
`p`-events and a `p`-free suffix holding all the `q`-events). -/
def eventsOrdered (p q : Event → Bool) (l : List Event) : Prop :=
  ∃ l1 l2, l = l1 ++ l2 ∧ (∀ e ∈ l1, q e = false) ∧ (∀ e ∈ l2, p e = false)

/-- The transition table of spec §4.1 restricted to the edges `loop` can
take (the `Booting → ConnectingNetwork` edge is taken inside `setup`):
`ConnectingNetwork → SyncingClock`, `SyncingClock → Ready`,
`Ready → ConnectingNetwork`, and the `ConnectingNetwork` self-restart. -/
inductive tableEdge : UiState → UiState → Prop
  | connectingToSync : tableEdge UiState.WIFI_CONNECTING UiState.TIME_SYNC
  | syncToReady : tableEdge UiState.TIME_SYNC UiState.READY
  | readyToConnecting : tableEdge UiState.READY UiState.WIFI_CONNECTING
  | connectingRestart : tableEdge UiState.WIFI_CONNECTING UiState.WIFI_CONNECTING

/-! ### Helper lemmas about the four blocks of `loop` -/

lemma elapsed_le (now t0 : Nat) : elapsed now t0 ≤ now - t0 := Nat.mod_le _ _

lemma lt_of_elapsed_lt {k now t0 : Nat} (h : k < elapsed now t0) : k < now - t0 :=
  lt_of_lt_of_le h (elapsed_le now t0)

lemma eventsOrdered_position {p q : Event → Bool} {l : List Event}
    (h : eventsOrdered p q l) {i j : Nat} (hi : i < l.length) (hj : j < l.length)
    (hp : p l[i] = true) (hq : q l[j] = true) : i < j := by
  obtain ⟨l1, l2, rfl, h1, h2⟩ := h
  by_contra hij
  push_neg at hij
  rcases Nat.lt_or_ge j l1.length with hjl | hjl
  · have hmem : (l1 ++ l2)[j] ∈ l1 := by
      rw [List.getElem_append_left hjl]
      exact List.getElem_mem _
    have hqf := h1 _ hmem
    rw [hq] at hqf
    exact Bool.noConfusion hqf
  · have hil : l1.length ≤ i := le_trans hjl hij
    have hlt : i - l1.length < l2.length := by
      simp only [List.length_append] at hi; omega
    have hmem : (l1 ++ l2)[i] ∈ l2 := by
      rw [List.getElem_append_right hil]
      exact List.getElem_mem _
    have hpf := h2 _ hmem
    rw [hp] at hpf
    exact Bool.noConfusion hpf

lemma branchConnecting_uiState (env : TickEnv) (s : SketchState) :
    (branchConnecting env s).1.uiState = s.uiState ∨
      (s.uiState = UiState.WIFI_CONNECTING ∧
        (branchConnecting env s).1.uiState = UiState.TIME_SYNC) := by
  unfold branchConnecting bootThrottleW connectWifi drawBootStep
  split_ifs <;> simp_all

lemma branchTimeSync_uiState (env : TickEnv) (s : SketchState) :
    (branchTimeSync env s).1.uiState = s.uiState ∨
      (s.uiState = UiState.TIME_SYNC ∧
        (branchTimeSync env s).1.uiState = UiState.READY) := by
  unfold branchTimeSync bootThrottleT startStream drawBootStep
  split_ifs <;> simp_all

lemma wifiPollCheck_uiState (env : TickEnv) (s : SketchState) :
    (wifiPollCheck env s).1.uiState = s.uiState ∨
      (s.uiState = UiState.READY ∧
        (wifiPollCheck env s).1.uiState = UiState.WIFI_CONNECTING) := by
  unfold wifiPollCheck connectWifi
  by_cases h1 : elapsed env.now s.lastWifiPoll > WIFI_POLL_MS
  · by_cases h2 : s.uiState = UiState.READY ∧ env.wifiConn2 = false
    · obtain ⟨h2a, h2b⟩ := h2
      by_cases h3 : s.mp3.isSome <;> simp [h1, h2a, h2b, h3]
    · simp [h1, h2]
  · simp [h1]

lemma branchReady_uiState (env : TickEnv) (s : SketchState) :
    (branchReady env s).1.uiState = s.uiState := by
  unfold branchReady streamSupervise startStream
  split_ifs <;> rcases h : s.mp3 with _ | r <;> simp_all <;> split_ifs <;> simp_all

lemma branchConnecting_preserves (env : TickEnv) (s : SketchState) :
    (branchConnecting env s).1.lastTimeDraw = s.lastTimeDraw ∧
    (branchConnecting env s).1.lastWifiPoll = s.lastWifiPoll ∧
    (branchConnecting env s).1.lastTry = s.lastTry ∧
    (branchConnecting env s).1.lastBootDrawT = s.lastBootDrawT ∧
    (branchConnecting env s).1.mp3 = s.mp3 ∧
    (branchConnecting env s).1.showMeta = s.showMeta ∧
    (branchConnecting env s).1.lastMetaTs = s.lastMetaTs := by
  unfold branchConnecting bootThrottleW connectWifi drawBootStep
  split_ifs <;> simp_all

lemma branchTimeSync_preserves (env : TickEnv) (s : SketchState) :
    (branchTimeSync env s).1.lastTimeDraw = s.lastTimeDraw ∧
    (branchTimeSync env s).1.lastWifiPoll = s.lastWifiPoll ∧
    (branchTimeSync env s).1.lastTry = s.lastTry ∧
    (branchTimeSync env s).1.lastBootDrawW = s.lastBootDrawW ∧
    (branchTimeSync env s).1.connectStart = s.connectStart ∧
    (branchTimeSync env s).1.showMeta = s.showMeta ∧
    (branchTimeSync env s).1.lastMetaTs = s.lastMetaTs := by
  unfold branchTimeSync bootThrottleT startStream drawBootStep
  split_ifs <;> simp_all

lemma wifiPollCheck_preserves (env : TickEnv) (s : SketchState) :
    (wifiPollCheck env s).1.lastTimeDraw = s.lastTimeDraw ∧
    (wifiPollCheck env s).1.lastTry = s.lastTry ∧
    (wifiPollCheck env s).1.lastBootDrawW = s.lastBootDrawW ∧
    (wifiPollCheck env s).1.lastBootDrawT = s.lastBootDrawT ∧
    (wifiPollCheck env s).1.showMeta = s.showMeta ∧
    (wifiPollCheck env s).1.lastMetaTs = s.lastMetaTs := by
  unfold wifiPollCheck connectWifi
  by_cases h1 : elapsed env.now s.lastWifiPoll > WIFI_POLL_MS
  · by_cases h2 : s.uiState = UiState.READY ∧ env.wifiConn2 = false
    · obtain ⟨h2a, h2b⟩ := h2
      by_cases h3 : s.mp3.isSome <;> simp [h1, h2a, h2b, h3]
    · simp [h1, h2]
  · simp [h1]

lemma streamSupervise_preserves (env : TickEnv) (s : SketchState) :
    (streamSupervise env s).1.lastTimeDraw = s.lastTimeDraw ∧
    (streamSupervise env s).1.lastWifiPoll = s.lastWifiPoll ∧
    (streamSupervise env s).1.lastBootDrawW = s.lastBootDrawW ∧
    (streamSupervise env s).1.lastBootDrawT = s.lastBootDrawT ∧
    (streamSupervise env s).1.connectStart = s.connectStart ∧
    (streamSupervise env s).1.uiState = s.uiState ∧
    (streamSupervise env s).1.showMeta = s.showMeta ∧
    (streamSupervise env s).1.lastMetaTs = s.lastMetaTs := by
  unfold streamSupervise startStream
  rcases h : s.mp3 with _ | r <;> simp_all <;> split_ifs <;> simp_all

lemma branchReady_preserves (env : TickEnv) (s : SketchState) :
    (branchReady env s).1.lastWifiPoll = s.lastWifiPoll ∧
    (branchReady env s).1.lastBootDrawW = s.lastBootDrawW ∧
    (branchReady env s).1.lastBootDrawT = s.lastBootDrawT ∧
    (branchReady env s).1.connectStart = s.connectStart ∧
    (branchReady env s).1.showMeta = s.showMeta ∧
    (branchReady env s).1.lastMetaTs = s.lastMetaTs := by
  have hp := streamSupervise_preserves env s
  unfold branchReady
  by_cases hui : s.uiState = UiState.READY
  · by_cases hr : elapsed env.now (streamSupervise env s).1.lastTimeDraw > TIME_REFRESH_MS <;>
      simp [hui, hr] <;> tauto
  · simp [hui]

lemma branchConnecting_events (env : TickEnv) (s : SketchState) :
    ∀ e ∈ (branchConnecting env s).2,
      e = Event.drawBootFrame BootScreen.wifiConnecting ∨
      e = Event.drawBootFrame BootScreen.syncTime ∨
      e = Event.configTimeEv ∨
      e = Event.wifiDisconnect ∨
      e = Event.wifiBeginJoin := by
  intro e he
  unfold branchConnecting bootThrottleW connectWifi at he
  split_ifs at he <;> simp_all <;> tauto

lemma branchTimeSync_events (env : TickEnv) (s : SketchState) :
    ∀ e ∈ (branchTimeSync env s).2,
      e = Event.drawBootFrame BootScreen.syncTime ∨ e = Event.streamStart := by
  intro e he
  unfold branchTimeSync bootThrottleT startStream at he
  split_ifs at he <;> simp_all <;> tauto

lemma wifiPollCheck_events (env : TickEnv) (s : SketchState) :
    ∀ e ∈ (wifiPollCheck env s).2,
      e = Event.mp3Stop ∨ e = Event.wifiBeginJoin := by
  intro e he
  unfold wifiPollCheck connectWifi at he
  by_cases h1 : elapsed env.now s.lastWifiPoll > WIFI_POLL_MS
  · by_cases h2 : s.uiState = UiState.READY ∧ env.wifiConn2 = false
    · obtain ⟨h2a, h2b⟩ := h2
      by_cases h3 : s.mp3.isSome <;> simp_all
    · simp_all
  · simp_all

lemma streamSupervise_events (env : TickEnv) (s : SketchState) :
    ∀ e ∈ (streamSupervise env s).2,
      e = Event.mp3Pump ∨ e = Event.mp3Stop ∨ e = Event.streamStart := by
  intro e he
  unfold streamSupervise startStream at he
  rcases h : s.mp3 with _ | r <;> simp_all <;> split_ifs at he <;> simp_all <;> tauto

lemma branchConnecting_skip (env : TickEnv) (s : SketchState)
    (h : s.uiState ≠ UiState.WIFI_CONNECTING) : branchConnecting env s = (s, []) := by
  unfold branchConnecting
  rw [if_neg h]

lemma branchTimeSync_skip (env : TickEnv) (s : SketchState)
    (h : s.uiState ≠ UiState.TIME_SYNC) : branchTimeSync env s = (s, []) := by
  unfold branchTimeSync
  rw [if_neg h]

lemma branchReady_skip (env : TickEnv) (s : SketchState)
    (h : s.uiState ≠ UiState.READY) : branchReady env s = (s, []) := by
  unfold branchReady
  rw [if_neg h]

lemma branchConnecting_noconn_uiState (env : TickEnv) (s : SketchState)
    (h : env.wifiConn1 = false) :
    (branchConnecting env s).1.uiState = s.uiState := by
  unfold branchConnecting bootThrottleW connectWifi drawBootStep
  split_ifs <;> simp_all

lemma wifiPollCheck_not_ready (env : TickEnv) (s : SketchState)
    (h : s.uiState ≠ UiState.READY) :
    (wifiPollCheck env s).1.uiState = s.uiState ∧
    (wifiPollCheck env s).1.connectStart = s.connectStart ∧
    (wifiPollCheck env s).1.mp3 = s.mp3 ∧
    (wifiPollCheck env s).2 = [] := by
  unfold wifiPollCheck
  by_cases h1 : elapsed env.now s.lastWifiPoll > WIFI_POLL_MS
  · have h2 : ¬ (s.uiState = UiState.READY ∧ env.wifiConn2 = false) := by
      intro hc; exact h hc.1
    simp [h1, h2]
  · simp [h1]

lemma wifiPollCheck_conn (env : TickEnv) (s : SketchState)
    (h : env.wifiConn2 = true) :
    (wifiPollCheck env s).1.uiState = s.uiState ∧
    (wifiPollCheck env s).1.connectStart = s.connectStart ∧
    (wifiPollCheck env s).1.mp3 = s.mp3 ∧
    (wifiPollCheck env s).2 = [] := by
  unfold wifiPollCheck
  by_cases h1 : elapsed env.now s.lastWifiPoll > WIFI_POLL_MS
  · have h2 : ¬ (s.uiState = UiState.READY ∧ env.wifiConn2 = false) := by
      intro hc; rw [h] at hc; exact Bool.noConfusion hc.2
    simp [h1, h2]
  · simp [h1]

lemma branchTimeSync_fires (env : TickEnv) (s : SketchState)
    (hui : s.uiState = UiState.TIME_SYNC) (ht : timeIsSet env.epochTime = true) :
    (branchTimeSync env s).1.uiState = UiState.READY ∧
    (branchTimeSync env s).1.mp3 = some env.beginRunning ∧
    Event.streamStart ∈ (branchTimeSync env s).2 := by
  unfold branchTimeSync bootThrottleT startStream drawBootStep
  split_ifs <;> simp_all

lemma branchTimeSync_stays (env : TickEnv) (s : SketchState)
    (hui : s.uiState = UiState.TIME_SYNC) (ht : timeIsSet env.epochTime = false) :
    (branchTimeSync env s).1.uiState = UiState.TIME_SYNC ∧
    Event.streamStart ∉ (branchTimeSync env s).2 := by
  unfold branchTimeSync bootThrottleT startStream drawBootStep
  split_ifs <;> simp_all

lemma branchReady_mp3_isSome (env : TickEnv) (s : SketchState)
    (h : s.mp3.isSome = true) : (branchReady env s).1.mp3.isSome = true := by
  unfold branchReady streamSupervise startStream
  split_ifs <;> rcases hm : s.mp3 with _ | r <;> simp_all <;> split_ifs <;> simp_all

lemma branchReady_pump_mem (env : TickEnv) (s : SketchState)
    (hui : s.uiState = UiState.READY) (hm : s.mp3 = some true) :
    Event.mp3Pump ∈ (branchReady env s).2 := by
  unfold branchReady streamSupervise
  split_ifs <;> simp_all <;> split_ifs <;> simp_all

lemma branchReady_restart (env : TickEnv) (s : SketchState)
    (hui : s.uiState = UiState.READY) (hm : s.mp3 = some false)
    (hcool : elapsed env.now s.lastTry > STREAM_RETRY_MS) :
    (branchReady env s).2.count Event.streamStart = 1 ∧
    (branchReady env s).1.lastTry = env.now ∧
    (branchReady env s).1.mp3 = some env.beginRunning ∧
    Event.streamStart ∈ (branchReady env s).2 := by
  unfold branchReady streamSupervise startStream
  split_ifs <;> simp_all <;> split_ifs <;> simp_all

lemma branchReady_no_restart (env : TickEnv) (s : SketchState)
    (hui : s.uiState = UiState.READY) (hm : s.mp3 = some false)
    (hcool : ¬ elapsed env.now s.lastTry > STREAM_RETRY_MS) :
    Event.streamStart ∉ (branchReady env s).2 ∧
    (branchReady env s).1.lastTry = s.lastTry ∧
    (branchReady env s).1.mp3 = s.mp3 := by
  unfold branchReady streamSupervise startStream
  split_ifs <;> simp_all <;> split_ifs <;> simp_all

lemma branchReady_events_decomp (env : TickEnv) (s : SketchState) :
    ∃ l1 l2, (branchReady env s).2 = l1 ++ l2 ∧
      (∀ e ∈ l1, e = Event.mp3Pump ∨ e = Event.mp3Stop ∨ e = Event.streamStart) ∧
      (∀ e ∈ l2, ∃ str, e = Event.drawReadyFrame str) := by
  unfold branchReady
  by_cases hui : s.uiState = UiState.READY
  · by_cases hr : elapsed env.now (streamSupervise env s).1.lastTimeDraw > TIME_REFRESH_MS
    · refine ⟨(streamSupervise env s).2,
        [Event.drawReadyFrame (readyStatusLine (streamSupervise env s).1 env.now)],
        by simp [hui, hr], streamSupervise_events env s, by simp⟩
    · exact ⟨(streamSupervise env s).2, [], by simp [hui, hr],
        streamSupervise_events env s, by simp⟩
  · exact ⟨[], [], by simp [hui], by simp, by simp⟩

lemma branchConnecting_noconn (env : TickEnv) (s : SketchState)
    (hui : s.uiState = UiState.WIFI_CONNECTING) (hconn : env.wifiConn1 = false) :
    (branchConnecting env s).1.uiState = UiState.WIFI_CONNECTING ∧
    (branchConnecting env s).1.connectStart =
      (if elapsed env.now s.connectStart > WIFI_TIMEOUT_MS then env.now
       else s.connectStart) ∧
    (elapsed env.now s.connectStart > WIFI_TIMEOUT_MS →
      List.Sublist [Event.wifiDisconnect, Event.wifiBeginJoin]
        (branchConnecting env s).2) ∧
    (¬ elapsed env.now s.connectStart > WIFI_TIMEOUT_MS →
      Event.wifiBeginJoin ∉ (branchConnecting env s).2) := by
  unfold branchConnecting bootThrottleW connectWifi drawBootStep
  by_cases hd : elapsed env.now s.lastBootDrawW > BOOT_DRAW_W_MS <;>
    by_cases ht : elapsed env.now s.connectStart > WIFI_TIMEOUT_MS <;>
      simp [hui, hconn, hd, ht]

lemma loop_stays_connecting (env : TickEnv) (s : SketchState)
    (hconn : env.wifiConn1 = false) (hui : s.uiState = UiState.WIFI_CONNECTING) :
    (loop env s).1.uiState = UiState.WIFI_CONNECTING := by
  have ha : (branchConnecting env s).1.uiState = UiState.WIFI_CONNECTING := by
    rw [branchConnecting_noconn_uiState env s hconn, hui]
  have hB := branchTimeSync_skip env (branchConnecting env s).1 (by rw [ha]; simp)
  have hb1 : (branchTimeSync env (branchConnecting env s).1).1.uiState =
      UiState.WIFI_CONNECTING := by rw [hB]; exact ha
  have hc := wifiPollCheck_not_ready env
    (branchTimeSync env (branchConnecting env s).1).1 (by rw [hb1]; simp)
  have hc1 : (wifiPollCheck env (branchTimeSync env
      (branchConnecting env s).1).1).1.uiState = UiState.WIFI_CONNECTING := by
    rw [hc.1, hb1]
  have hD := branchReady_skip env _ (by rw [hc1]; simp)
  simp only [loop]
  rw [hD]
  exact hc1

lemma runTicks_connecting (envs : List TickEnv) (s : SketchState)
    (hui : s.uiState = UiState.WIFI_CONNECTING)
    (hall : ∀ e ∈ envs, e.wifiConn1 = false) :
    (runTicks envs s).uiState = UiState.WIFI_CONNECTING := by
  induction envs generalizing s with
  | nil => simpa [runTicks] using hui
  | cons e es ih =>
    simp only [runTicks, List.foldl_cons]
    exact ih ((loop e s).1)
      (loop_stays_connecting e s (hall e (by simp)) hui)
      (fun x hx => hall x (by simp [hx]))

/-! ### Claim theorems -/

/-- C8: the signal-quality mapping used for the Ready header maps RSSI
values −50, −60, −80 and −90 dBm to quality levels 4, 3, 1 and 0
respectively, given the fixed thresholds −55/−65/−75/−85, when the link is
associated. -/
theorem wifi_bars_thresholds :
    drawWifiBars (-50) true = 4 ∧ drawWifiBars (-60) true = 3 ∧
    drawWifiBars (-80) true = 1 ∧ drawWifiBars (-90) true = 0 := by
  decide

/-- C3: if the phase is `READY` and the fixed-interval network poll is due
in this tick and observes the link not associated, then the tick ends (and
hence the next tick starts) in `WIFI_CONNECTING`, the tick's observable
effects are exactly the stream-session stop followed by the new join (the
stop is issued before the join begins), the generator is left stopped, and
the attempt timer is reset to the current time. -/
theorem ready_link_loss_stops_then_rejoins (env : TickEnv) (s : SketchState)
    (r : Bool) (hui : s.uiState = UiState.READY)
    (hpoll : elapsed env.now s.lastWifiPoll > WIFI_POLL_MS)
    (hconn : env.wifiConn2 = false) (hmp3 : s.mp3 = some r) :
    (loop env s).1.uiState = UiState.WIFI_CONNECTING ∧
    (loop env s).2 = [Event.mp3Stop, Event.wifiBeginJoin] ∧
    (loop env s).1.mp3 = some false ∧
    (loop env s).1.connectStart = env.now := by
  have hA : branchConnecting env s = (s, []) :=
    branchConnecting_skip env s (by rw [hui]; simp)
  have hB : branchTimeSync env s = (s, []) :=
    branchTimeSync_skip env s (by rw [hui]; simp)
  have hC : (wifiPollCheck env s).1.uiState = UiState.WIFI_CONNECTING ∧
      (wifiPollCheck env s).2 = [Event.mp3Stop, Event.wifiBeginJoin] ∧
      (wifiPollCheck env s).1.mp3 = some false ∧
      (wifiPollCheck env s).1.connectStart = env.now := by
    unfold wifiPollCheck connectWifi
    simp [hpoll, hui, hconn, hmp3]
  have hD : branchReady env (wifiPollCheck env s).1 = ((wifiPollCheck env s).1, []) :=
    branchReady_skip env _ (by rw [hC.1]; simp)
  simp only [loop, hA, hB]
  rw [hD]
  simpa using hC

/-- Concrete instance of the `READY` link-loss transition: the poll is due
at `now = 2000`, the link is down, and the tick stops the stream and
rejoins. -/
def readyLinkLossState : SketchState :=
  { initialState with uiState := UiState.READY, mp3 := some true }

/-- Environment for the link-loss instance. -/
def readyLinkLossEnv : TickEnv :=
  { now := 2000, wifiConn1 := false, wifiConn2 := false, epochTime := 0,
    pumpOk := true, beginRunning := true, ipAddr := "" }

/-- Witness for C3 at a concrete input. -/
theorem ready_link_loss_stops_then_rejoins_witness :
    (loop readyLinkLossEnv readyLinkLossState).1.uiState = UiState.WIFI_CONNECTING ∧
    (loop readyLinkLossEnv readyLinkLossState).2 =
      [Event.mp3Stop, Event.wifiBeginJoin] ∧
    (loop readyLinkLossEnv readyLinkLossState).1.mp3 = some false ∧
    (loop readyLinkLossEnv readyLinkLossState).1.connectStart =
      readyLinkLossEnv.now :=
  ready_link_loss_stops_then_rejoins readyLinkLossEnv readyLinkLossState true
    rfl (by decide) rfl rfl

/-- C5: in `TIME_SYNC`, the machine transitions to `READY` exactly when the
clock source reports a wall-clock time above the fixed epoch sanity
threshold (1700000000), and on that transition the stream session is
started; for any reported time at or below the threshold the phase stays
`TIME_SYNC` and no session start is issued.  (The `READY`-at-end-of-tick
conclusion additionally assumes the link did not drop in the very same
tick, since the subsequent poll check would then immediately fall back.) -/
theorem syncing_to_ready_on_plausible_time (env : TickEnv) (s : SketchState)
    (hui : s.uiState = UiState.TIME_SYNC) :
    (env.epochTime > 1700000000 → env.wifiConn2 = true →
      (loop env s).1.uiState = UiState.READY ∧
      Event.streamStart ∈ (loop env s).2 ∧
      (loop env s).1.mp3.isSome = true) ∧
    (env.epochTime ≤ 1700000000 →
      (loop env s).1.uiState = UiState.TIME_SYNC ∧
      Event.streamStart ∉ (loop env s).2) := by
  have hA : branchConnecting env s = (s, []) :=
    branchConnecting_skip env s (by rw [hui]; simp)
  constructor
  · intro ht hconn
    have htset : timeIsSet env.epochTime = true := by
      simpa [timeIsSet] using ht
    have hB := branchTimeSync_fires env s hui htset
    have hC := wifiPollCheck_conn env (branchTimeSync env s).1 hconn
    have hcui : (wifiPollCheck env (branchTimeSync env s).1).1.uiState =
        UiState.READY := by rw [hC.1, hB.1]
    have hcmp3 : (wifiPollCheck env (branchTimeSync env s).1).1.mp3 =
        some env.beginRunning := by rw [hC.2.2.1, hB.2.1]
    have hdui := branchReady_uiState env (wifiPollCheck env (branchTimeSync env s).1).1
    have hdsome := branchReady_mp3_isSome env
      (wifiPollCheck env (branchTimeSync env s).1).1 (by rw [hcmp3]; rfl)
    refine ⟨?_, ?_, ?_⟩
    · simp only [loop, hA]
      rw [hdui, hcui]
    · simp only [loop, hA, hC.2.2.2]
      have := hB.2.2
      simp_all
    · simp only [loop, hA]
      exact hdsome
  · intro hle
    have htset : timeIsSet env.epochTime = false := by
      simp [timeIsSet]
      omega
    have hB := branchTimeSync_stays env s hui htset
    have hC := wifiPollCheck_not_ready env (branchTimeSync env s).1
      (by rw [hB.1]; simp)
    have hcui : (wifiPollCheck env (branchTimeSync env s).1).1.uiState =
        UiState.TIME_SYNC := by rw [hC.1, hB.1]
    have hD := branchReady_skip env _ (by rw [hcui]; simp)
    constructor
    · simp only [loop, hA]
      rw [hD]
      exact hcui
    · simp only [loop, hA, hC.2.2.2]
      rw [hD]
      have := hB.2
      simp_all

/-- State for the C5 witness. -/
def syncingState : SketchState :=
  { initialState with uiState := UiState.TIME_SYNC }

/-- Environment for the C5 witness: plausible epoch time, link up. -/
def syncingEnv : TickEnv :=
  { now := 0, wifiConn1 := false, wifiConn2 := true, epochTime := 1800000000,
    pumpOk := true, beginRunning := true, ipAddr := "" }

/-- Witness for C5 at a concrete input. -/
theorem syncing_to_ready_on_plausible_time_witness :
    (loop syncingEnv syncingState).1.uiState = UiState.READY ∧
    Event.streamStart ∈ (loop syncingEnv syncingState).2 ∧
    (loop syncingEnv syncingState).1.mp3.isSome = true :=
  (syncing_to_ready_on_plausible_time syncingEnv syncingState rfl).1
    (by decide) rfl

/-- C4: while the phase is `WIFI_CONNECTING` and the link does not come up,
the tick leaves the phase unchanged; when the attempt timeout budget has
been exceeded the tick force-disconnects and then issues a new join (in
that order) and resets the attempt timer to the current time (so the true
time between consecutive restarts exceeds the 20000 ms budget); when the
budget has not been exceeded no join is issued and the timer is kept;
and over any run of ticks in which the link never reports associated the
machine remains in `WIFI_CONNECTING` forever, never entering `TIME_SYNC`. -/
theorem connecting_restart_on_timeout (env : TickEnv) (s : SketchState)
    (envs : List TickEnv)
    (hui : s.uiState = UiState.WIFI_CONNECTING) (hconn : env.wifiConn1 = false) :
    (loop env s).1.uiState = UiState.WIFI_CONNECTING ∧
    (elapsed env.now s.connectStart > WIFI_TIMEOUT_MS →
      List.Sublist [Event.wifiDisconnect, Event.wifiBeginJoin] (loop env s).2 ∧
      (loop env s).1.connectStart = env.now ∧
      env.now - s.connectStart > WIFI_TIMEOUT_MS) ∧
    (¬ elapsed env.now s.connectStart > WIFI_TIMEOUT_MS →
      Event.wifiBeginJoin ∉ (loop env s).2 ∧
      (loop env s).1.connectStart = s.connectStart) ∧
    ((∀ e ∈ envs, e.wifiConn1 = false) →
      (runTicks envs s).uiState = UiState.WIFI_CONNECTING) := by
  have hA := branchConnecting_noconn env s hui hconn
  have haui : (branchConnecting env s).1.uiState = UiState.WIFI_CONNECTING := hA.1
  have hB := branchTimeSync_skip env (branchConnecting env s).1 (by rw [haui]; simp)
  have hC := wifiPollCheck_not_ready env (branchConnecting env s).1
    (by rw [haui]; simp)
  have hcui : (wifiPollCheck env (branchConnecting env s).1).1.uiState =
      UiState.WIFI_CONNECTING := by rw [hC.1, haui]
  have hD := branchReady_skip env (wifiPollCheck env (branchConnecting env s).1).1
    (by rw [hcui]; simp)
  refine ⟨?_, ?_, ?_, fun hall => runTicks_connecting envs s hui hall⟩
  · simp only [loop, hB, hD]
    exact hcui
  · intro ht
    refine ⟨?_, ?_, lt_of_elapsed_lt ht⟩
    · simp only [loop, hB, hC.2.2.2, hD]
      simpa using hA.2.2.1 ht
    · simp only [loop, hB, hD]
      rw [hC.2.1, hA.2.1, if_pos ht]
  · intro ht
    refine ⟨?_, ?_⟩
    · simp only [loop, hB, hC.2.2.2, hD]
      simpa using hA.2.2.2 ht
    · simp only [loop, hB, hD]
      rw [hC.2.1, hA.2.1, if_neg ht]

/-- State for the C4 witness: `WIFI_CONNECTING` with the attempt started at
time 0. -/
def connectingState : SketchState :=
  { initialState with uiState := UiState.WIFI_CONNECTING }

/-- Environment for the C4 witness: 30000 ms into a failed attempt. -/
def connectingEnv : TickEnv :=
  { now := 30000, wifiConn1 := false, wifiConn2 := false, epochTime := 0,
    pumpOk := true, beginRunning := true, ipAddr := "" }

/-- Witness for C4 at a concrete input. -/
theorem connecting_restart_on_timeout_witness :
    List.Sublist [Event.wifiDisconnect, Event.wifiBeginJoin]
      (loop connectingEnv connectingState).2 ∧
    (loop connectingEnv connectingState).1.connectStart = connectingEnv.now ∧
    connectingEnv.now - connectingState.connectStart > WIFI_TIMEOUT_MS :=
  (connecting_restart_on_timeout connectingEnv connectingState [] rfl rfl).2.1
    (by decide)

/-- C6 (amended): in `READY` with the session not running (and the link
up), the supervisor issues no session start while the cooldown measured
from the last restart attempt (`lastTry`) has not elapsed, and on the
first tick at which more than `STREAM_RETRY_MS` has elapsed since
`lastTry` it issues exactly one session start and records the restart
timestamp.  (The unamended claim measured the cooldown from the pump
failure time; the code measures it from the previous restart attempt.) -/
theorem ready_restart_cooldown_amended (env : TickEnv) (s : SketchState)
    (hui : s.uiState = UiState.READY) (hmp3 : s.mp3 = some false)
    (hconn : env.wifiConn2 = true) :
    (¬ elapsed env.now s.lastTry > STREAM_RETRY_MS →
      Event.streamStart ∉ (loop env s).2 ∧
      (loop env s).1.lastTry = s.lastTry) ∧
    (elapsed env.now s.lastTry > STREAM_RETRY_MS →
      (loop env s).2.count Event.streamStart = 1 ∧
      (loop env s).1.lastTry = env.now ∧
      (loop env s).1.mp3 = some env.beginRunning) := by
  have hA : branchConnecting env s = (s, []) :=
    branchConnecting_skip env s (by rw [hui]; simp)
  have hB : branchTimeSync env s = (s, []) :=
    branchTimeSync_skip env s (by rw [hui]; simp)
  have hC := wifiPollCheck_conn env s hconn
  have hcui : (wifiPollCheck env s).1.uiState = UiState.READY := by
    rw [hC.1, hui]
  have hcmp3 : (wifiPollCheck env s).1.mp3 = some false := by
    rw [hC.2.2.1, hmp3]
  have hctry : (wifiPollCheck env s).1.lastTry = s.lastTry :=
    (wifiPollCheck_preserves env s).2.1
  constructor
  · intro hcool
    have hd := branchReady_no_restart env (wifiPollCheck env s).1 hcui hcmp3
      (by rw [hctry]; exact hcool)
    refine ⟨?_, ?_⟩
    · simp only [loop, hA, hB, hC.2.2.2]
      simpa using hd.1
    · simp only [loop, hA, hB]
      rw [hd.2.1, hctry]
  · intro hcool
    have hd := branchReady_restart env (wifiPollCheck env s).1 hcui hcmp3
      (by rw [hctry]; exact hcool)
    refine ⟨?_, ?_, ?_⟩
    · simp only [loop, hA, hB, hC.2.2.2]
      simpa using hd.1
    · simp only [loop, hA, hB]
      exact hd.2.1
    · simp only [loop, hA, hB]
      exact hd.2.2.1

/-- State for the C6 counterexample and scenario: `READY`, session running,
no restart attempt recorded yet (`lastTry = 0`). -/
def cooldownState : SketchState :=
  { initialState with uiState := UiState.READY, mp3 := some true }

/-- First tick of the C6 counterexample: the pump fails at `now = 100000`. -/
def cooldownEnvFail : TickEnv :=
  { now := 100000, wifiConn1 := false, wifiConn2 := true, epochTime := 0,
    pumpOk := false, beginRunning := true, ipAddr := "" }

/-- Second tick of the C6 counterexample, 1 ms after the failure. -/
def cooldownEnvNext : TickEnv :=
  { cooldownEnvFail with now := 100001 }

/-- C6 counterexample: the pump reports failure at time 100000 (the tick
pumps and leaves the generator stopped, issuing no restart), yet the very
next tick at time 100001 already issues a session start — long before
`100000 + STREAM_RETRY_MS`.  The cooldown is measured from the last
restart attempt (`lastTry`, here still 0), not from the failure time, so
the claim as stated is false. -/
theorem ready_restart_cooldown_counterexample :
    Event.mp3Pump ∈ (loop cooldownEnvFail cooldownState).2 ∧
    (loop cooldownEnvFail cooldownState).1.mp3 = some false ∧
    Event.streamStart ∉ (loop cooldownEnvFail cooldownState).2 ∧
    Event.streamStart ∈
      (loop cooldownEnvNext (loop cooldownEnvFail cooldownState).1).2 ∧
    cooldownEnvNext.now < cooldownEnvFail.now + STREAM_RETRY_MS := by
  decide

/-- State for the C6 witness: `READY` with a stopped session and
`lastTry = 0`. -/
def cooldownStopped : SketchState :=
  { initialState with uiState := UiState.READY, mp3 := some false }

/-- Environment for the C6 witness: 5000 ms after the last restart
attempt. -/
def cooldownEnvLate : TickEnv :=
  { now := 5000, wifiConn1 := false, wifiConn2 := true, epochTime := 0,
    pumpOk := true, beginRunning := true, ipAddr := "" }

/-- Witness for the amended C6 at a concrete input. -/
theorem ready_restart_cooldown_amended_witness :
    (loop cooldownEnvLate cooldownStopped).2.count Event.streamStart = 1 ∧
    (loop cooldownEnvLate cooldownStopped).1.lastTry = cooldownEnvLate.now ∧
    (loop cooldownEnvLate cooldownStopped).1.mp3 =
      some cooldownEnvLate.beginRunning :=
  (ready_restart_cooldown_amended cooldownEnvLate cooldownStopped rfl rfl rfl).2
    (by decide)

lemma branchReady_frame_ready (env : TickEnv) (s : SketchState) (str : String)
    (h : Event.drawReadyFrame str ∈ (branchReady env s).2) :
    s.uiState = UiState.READY := by
  by_contra hui
  rw [branchReady_skip env s hui] at h
  simp at h

lemma branchReady_frame (env : TickEnv) (s : SketchState) :
    ((∃ str, Event.drawReadyFrame str ∈ (branchReady env s).2) →
      elapsed env.now s.lastTimeDraw > TIME_REFRESH_MS ∧
      (branchReady env s).1.lastTimeDraw = env.now) ∧
    ((∀ str, Event.drawReadyFrame str ∉ (branchReady env s).2) →
      (branchReady env s).1.lastTimeDraw = s.lastTimeDraw) := by
  have hsup := streamSupervise_preserves env s
  unfold branchReady
  by_cases hui : s.uiState = UiState.READY
  · by_cases hr : elapsed env.now (streamSupervise env s).1.lastTimeDraw >
        TIME_REFRESH_MS
    · constructor
      · intro _
        refine ⟨?_, by simp [hui, hr]⟩
        rw [← hsup.1]
        exact hr
      · intro hnone
        exact absurd (by simp [hui, hr] : Event.drawReadyFrame
          (readyStatusLine (streamSupervise env s).1 env.now) ∈
            (if s.uiState = UiState.READY then
              if elapsed env.now (streamSupervise env s).1.lastTimeDraw >
                  TIME_REFRESH_MS then
                ({ (streamSupervise env s).1 with lastTimeDraw := env.now },
                 (streamSupervise env s).2 ++ [Event.drawReadyFrame
                   (readyStatusLine (streamSupervise env s).1 env.now)])
              else streamSupervise env s
            else (s, [])).2) (hnone _)
    · constructor
      · rintro ⟨str, hmem⟩
        exfalso
        have hmem2 : Event.drawReadyFrame str ∈ (streamSupervise env s).2 := by
          simpa [hui, hr] using hmem
        rcases streamSupervise_events env s _ hmem2 with h | h | h <;>
          exact Event.noConfusion h
      · intro _
        rw [hsup.1] at hr
        simp [hui, hr, hsup.1]
  · constructor
    · rintro ⟨str, hmem⟩
      simp [hui] at hmem
    · intro _
      simp [hui]

lemma branchConnecting_wcFrame (env : TickEnv) (s : SketchState) :
    (Event.drawBootFrame BootScreen.wifiConnecting ∈ (branchConnecting env s).2 →
      elapsed env.now s.lastBootDrawW > BOOT_DRAW_W_MS ∧
      (branchConnecting env s).1.lastBootDrawW = env.now) ∧
    (Event.drawBootFrame BootScreen.wifiConnecting ∉ (branchConnecting env s).2 →
      (branchConnecting env s).1.lastBootDrawW = s.lastBootDrawW) := by
  unfold branchConnecting bootThrottleW connectWifi drawBootStep
  by_cases hui : s.uiState = UiState.WIFI_CONNECTING <;>
    by_cases hd : elapsed env.now s.lastBootDrawW > BOOT_DRAW_W_MS <;>
      by_cases hc : env.wifiConn1 = true <;>
        by_cases ht : elapsed env.now s.connectStart > WIFI_TIMEOUT_MS <;>
          simp [hui, hd, hc, ht]

lemma wifiPollCheck_ready_mp3 (env : TickEnv) (s : SketchState)
    (h : (wifiPollCheck env s).1.uiState = UiState.READY) :
    (wifiPollCheck env s).1.mp3 = s.mp3 ∧ s.uiState = UiState.READY := by
  unfold wifiPollCheck connectWifi at h ⊢
  by_cases h1 : elapsed env.now s.lastWifiPoll > WIFI_POLL_MS
  · by_cases h2 : s.uiState = UiState.READY ∧ env.wifiConn2 = false
    · exfalso
      obtain ⟨h2a, h2b⟩ := h2
      by_cases h3 : s.mp3.isSome <;> simp [h1, h2a, h2b, h3] at h
    · simp only [h2, if_false, if_pos h1, if_neg h2] at h ⊢
      simp at h ⊢
      exact h
  · simp [h1] at h ⊢
    exact h

lemma branchTimeSync_ready_mp3 (env : TickEnv) (s : SketchState)
    (h : (branchTimeSync env s).1.uiState = UiState.READY) :
    (s.uiState = UiState.READY ∧ (branchTimeSync env s).1.mp3 = s.mp3) ∨
    (branchTimeSync env s).1.mp3.isSome = true := by
  unfold branchTimeSync bootThrottleT startStream drawBootStep at h ⊢
  split_ifs at h ⊢ <;> simp_all

/-- C1: on every tick exactly one phase is active (the phase is one value
of the `UiState` enumeration), and the phase changes taken within a tick
chain only along the edges of the §4.1 transition table — so no phase is
skipped; moreover `BOOTING` is never re-entered (a tick ends in `BOOTING`
only if it started there), and `setup` completes in `WIFI_CONNECTING`, so
after setup `BOOTING` is never active again. -/
theorem phase_transitions_follow_table (env : TickEnv) (s : SketchState)
    (t : Nat) :
    Relation.ReflTransGen tableEdge s.uiState (loop env s).1.uiState ∧
    ((loop env s).1.uiState = UiState.BOOTING → s.uiState = UiState.BOOTING) ∧
    (setupState t).uiState = UiState.WIFI_CONNECTING := by
  have ha := branchConnecting_uiState env s
  have hb := branchTimeSync_uiState env (branchConnecting env s).1
  have hc := wifiPollCheck_uiState env
    (branchTimeSync env (branchConnecting env s).1).1
  have hd := branchReady_uiState env
    (wifiPollCheck env (branchTimeSync env (branchConnecting env s).1).1).1
  refine ⟨?_, ?_, rfl⟩
  · have s1 : Relation.ReflTransGen tableEdge s.uiState
        (branchConnecting env s).1.uiState := by
      rcases ha with h | ⟨h1, h2⟩
      · rw [h]
      · rw [h1, h2]
        exact Relation.ReflTransGen.single tableEdge.connectingToSync
    have s2 : Relation.ReflTransGen tableEdge (branchConnecting env s).1.uiState
        (branchTimeSync env (branchConnecting env s).1).1.uiState := by
      rcases hb with h | ⟨h1, h2⟩
      · rw [h]
      · rw [h1, h2]
        exact Relation.ReflTransGen.single tableEdge.syncToReady
    have s3 : Relation.ReflTransGen tableEdge
        (branchTimeSync env (branchConnecting env s).1).1.uiState
        (wifiPollCheck env (branchTimeSync env
          (branchConnecting env s).1).1).1.uiState := by
      rcases hc with h | ⟨h1, h2⟩
      · rw [h]
      · rw [h1, h2]
        exact Relation.ReflTransGen.single tableEdge.readyToConnecting
    have s4 := ((s1.trans s2).trans s3)
    rw [← hd] at s4
    simpa [loop] using s4
  · intro hboot
    have hdE : (wifiPollCheck env (branchTimeSync env
        (branchConnecting env s).1).1).1.uiState = UiState.BOOTING := by
      rw [← hd]
      simpa [loop] using hboot
    have hcE : (branchTimeSync env (branchConnecting env s).1).1.uiState =
        UiState.BOOTING := by
      rcases hc with h | ⟨h1, h2⟩
      · rw [← h]; exact hdE
      · rw [h2] at hdE; exact absurd hdE (by decide)
    have hbE : (branchConnecting env s).1.uiState = UiState.BOOTING := by
      rcases hb with h | ⟨h1, h2⟩
      · rw [← h]; exact hcE
      · rw [h2] at hcE; exact absurd hcE (by decide)
    rcases ha with h | ⟨h1, h2⟩
    · rw [← h]; exact hbE
    · rw [h2] at hbE; exact absurd hbE (by decide)

/-- State for the C1 witness: power-on state, still in `BOOTING`. -/
def bootState : SketchState := initialState

/-- Environment for the C1 witness. -/
def bootEnv : TickEnv :=
  { now := 0, wifiConn1 := true, wifiConn2 := true, epochTime := 1800000000,
    pumpOk := true, beginRunning := true, ipAddr := "" }

/-- Witness for C1 at a concrete input. -/
theorem phase_transitions_follow_table_witness :
    Relation.ReflTransGen tableEdge bootState.uiState
      (loop bootEnv bootState).1.uiState ∧
    bootState.uiState = UiState.BOOTING :=
  ⟨(phase_transitions_follow_table bootEnv bootState 0).1,
   (phase_transitions_follow_table bootEnv bootState 0).2.1 (by decide)⟩

/-- C2: within a single tick, the collaborator commands issued by the
phase/transition blocks (`WiFi.disconnect`, `WiFi.begin`, `configTime`)
all occur strictly before every stream-pump call, every stream-pump call
occurs strictly before the `drawReady` presentation, and a tick that
presents a ready frame ends the tick in `READY` — the presented frame
reflects the phase transitions taken earlier in the same tick, never the
previous tick's phase. -/
theorem tick_orders_transitions_pump_render (env : TickEnv) (s : SketchState) :
    eventsOrdered isTransitionCmd isPump (loop env s).2 ∧
    eventsOrdered isPump isReadyFrame (loop env s).2 ∧
    ((∃ str, Event.drawReadyFrame str ∈ (loop env s).2) →
      (loop env s).1.uiState = UiState.READY) := by
  obtain ⟨l1, l2, hdec, hl1, hl2⟩ := branchReady_events_decomp env
    (wifiPollCheck env (branchTimeSync env (branchConnecting env s).1).1).1
  have hpumpA : ∀ e ∈ (branchConnecting env s).2, isPump e = false := by
    intro e he
    rcases branchConnecting_events env s e he with h | h | h | h | h <;>
      subst h <;> rfl
  have hpumpB : ∀ e ∈ (branchTimeSync env (branchConnecting env s).1).2,
      isPump e = false := by
    intro e he
    rcases branchTimeSync_events env _ e he with h | h <;> subst h <;> rfl
  have hpumpC : ∀ e ∈ (wifiPollCheck env
      (branchTimeSync env (branchConnecting env s).1).1).2, isPump e = false := by
    intro e he
    rcases wifiPollCheck_events env _ e he with h | h <;> subst h <;> rfl
  have hframeA : ∀ e ∈ (branchConnecting env s).2, isReadyFrame e = false := by
    intro e he
    rcases branchConnecting_events env s e he with h | h | h | h | h <;>
      subst h <;> rfl
  have hframeB : ∀ e ∈ (branchTimeSync env (branchConnecting env s).1).2,
      isReadyFrame e = false := by
    intro e he
    rcases branchTimeSync_events env _ e he with h | h <;> subst h <;> rfl
  have hframeC : ∀ e ∈ (wifiPollCheck env
      (branchTimeSync env (branchConnecting env s).1).1).2,
      isReadyFrame e = false := by
    intro e he
    rcases wifiPollCheck_events env _ e he with h | h <;> subst h <;> rfl
  refine ⟨?_, ?_, ?_⟩
  · refine ⟨_, _, by simp only [loop]; rw [hdec], ?_, ?_⟩
    · intro e he
      rcases List.mem_append.mp he with h | h
      · rcases List.mem_append.mp h with h2 | h2
        · exact hpumpA e h2
        · exact hpumpB e h2
      · exact hpumpC e h
    · intro e he
      rcases List.mem_append.mp he with h | h
      · rcases hl1 e h with h2 | h2 | h2 <;> subst h2 <;> rfl
      · obtain ⟨str, h2⟩ := hl2 e h
        subst h2
        rfl
  · refine ⟨((branchConnecting env s).2 ++
        (branchTimeSync env (branchConnecting env s).1).2 ++
        (wifiPollCheck env (branchTimeSync env
          (branchConnecting env s).1).1).2) ++ l1, l2,
      by simp only [loop, hdec, List.append_assoc], ?_, ?_⟩
    · intro e he
      rcases List.mem_append.mp he with h | h
      · rcases List.mem_append.mp h with h2 | h2
        · rcases List.mem_append.mp h2 with h3 | h3
          · exact hframeA e h3
          · exact hframeB e h3
        · exact hframeC e h2
      · rcases hl1 e h with h2 | h2 | h2 <;> subst h2 <;> rfl
    · intro e he
      obtain ⟨str, h2⟩ := hl2 e he
      subst h2
      rfl
  · rintro ⟨str, hmem⟩
    have hd := branchReady_uiState env
      (wifiPollCheck env (branchTimeSync env (branchConnecting env s).1).1).1
    have hmem2 : Event.drawReadyFrame str ∈ (branchReady env
        (wifiPollCheck env (branchTimeSync env
          (branchConnecting env s).1).1).1).2 := by
      simp only [loop] at hmem
      rcases List.mem_append.mp hmem with h | h
      · rcases List.mem_append.mp h with h2 | h2
        · rcases List.mem_append.mp h2 with h3 | h3
          · rcases branchConnecting_events env s _ h3 with h4 | h4 | h4 | h4 | h4 <;>
              exact Event.noConfusion h4
          · rcases branchTimeSync_events env _ _ h3 with h4 | h4 <;>
              exact Event.noConfusion h4
        · rcases wifiPollCheck_events env _ _ h2 with h4 | h4 <;>
            exact Event.noConfusion h4
      · exact h
    have hcready := branchReady_frame_ready env _ str hmem2
    simp only [loop]
    rw [hd, hcready]

/-- State for the C2 witness: `READY` with a running session. -/
def renderTickState : SketchState :=
  { initialState with uiState := UiState.READY, mp3 := some true }

/-- Environment for the C2 witness: render throttle due, pump succeeds. -/
def renderTickEnv : TickEnv :=
  { now := 1000, wifiConn1 := false, wifiConn2 := true, epochTime := 0,
    pumpOk := true, beginRunning := true, ipAddr := "" }

/-- Witness for C2 at a concrete input. -/
theorem tick_orders_transitions_pump_render_witness :
    (loop renderTickEnv renderTickState).1.uiState = UiState.READY :=
  (tick_orders_transitions_pump_render renderTickEnv renderTickState).2.2
    ⟨"STREAM: playing", by decide⟩

/-- C7 (amended): the per-screen redraw throttles govern the repeated
presentations: a tick presents a `drawReady` frame exactly when more than
`TIME_REFRESH_MS` has elapsed since `lastTimeDraw`, stamping it with the
tick time (so consecutive ready frames are always more than 250 ms apart),
and likewise for the connecting screen with `BOOT_DRAW_W_MS`.  The
unamended claim fails for the sync screen: the
`WIFI_CONNECTING → TIME_SYNC` transition (and `setup`) present a frame
directly, outside any throttle, so two sync-screen presentations can
coincide (see the counterexample). -/
theorem render_throttle_amended (env : TickEnv) (s : SketchState) :
    ((∃ str, Event.drawReadyFrame str ∈ (loop env s).2) →
      elapsed env.now s.lastTimeDraw > TIME_REFRESH_MS ∧
      (loop env s).1.lastTimeDraw = env.now) ∧
    ((∀ str, Event.drawReadyFrame str ∉ (loop env s).2) →
      (loop env s).1.lastTimeDraw = s.lastTimeDraw) ∧
    (Event.drawBootFrame BootScreen.wifiConnecting ∈ (loop env s).2 →
      elapsed env.now s.lastBootDrawW > BOOT_DRAW_W_MS ∧
      (loop env s).1.lastBootDrawW = env.now) ∧
    (Event.drawBootFrame BootScreen.wifiConnecting ∉ (loop env s).2 →
      (loop env s).1.lastBootDrawW = s.lastBootDrawW) := by
  obtain ⟨l1, l2, hdec, hl1, hl2⟩ := branchReady_events_decomp env
    (wifiPollCheck env (branchTimeSync env (branchConnecting env s).1).1).1
  have hAp := branchConnecting_preserves env s
  have hBp := branchTimeSync_preserves env (branchConnecting env s).1
  have hCp := wifiPollCheck_preserves env
    (branchTimeSync env (branchConnecting env s).1).1
  have hDp := branchReady_preserves env
    (wifiPollCheck env (branchTimeSync env (branchConnecting env s).1).1).1
  have hcLTD : (wifiPollCheck env (branchTimeSync env
      (branchConnecting env s).1).1).1.lastTimeDraw = s.lastTimeDraw := by
    rw [hCp.1, hBp.1, hAp.1]
  have hDf := branchReady_frame env
    (wifiPollCheck env (branchTimeSync env (branchConnecting env s).1).1).1
  have hAw := branchConnecting_wcFrame env s
  refine ⟨?_, ?_, ?_, ?_⟩
  · rintro ⟨str, hmem⟩
    have hmem2 : Event.drawReadyFrame str ∈ (branchReady env
        (wifiPollCheck env (branchTimeSync env
          (branchConnecting env s).1).1).1).2 := by
      simp only [loop] at hmem
      rcases List.mem_append.mp hmem with h | h
      · rcases List.mem_append.mp h with h2 | h2
        · rcases List.mem_append.mp h2 with h3 | h3
          · rcases branchConnecting_events env s _ h3 with h4 | h4 | h4 | h4 | h4 <;>
              exact Event.noConfusion h4
          · rcases branchTimeSync_events env _ _ h3 with h4 | h4 <;>
              exact Event.noConfusion h4
        · rcases wifiPollCheck_events env _ _ h2 with h4 | h4 <;>
            exact Event.noConfusion h4
      · exact h
    obtain ⟨hgt, heq⟩ := hDf.1 ⟨str, hmem2⟩
    rw [hcLTD] at hgt
    refine ⟨hgt, ?_⟩
    simp only [loop]
    exact heq
  · intro hnone
    have hn2 : ∀ str, Event.drawReadyFrame str ∉ (branchReady env
        (wifiPollCheck env (branchTimeSync env
          (branchConnecting env s).1).1).1).2 := by
      intro str hmem2
      exact hnone str
        (by simp only [loop]; exact List.mem_append.mpr (Or.inr hmem2))
    have heq := hDf.2 hn2
    simp only [loop]
    rw [heq, hcLTD]
  · intro hmem
    have hmem2 : Event.drawBootFrame BootScreen.wifiConnecting ∈
        (branchConnecting env s).2 := by
      simp only [loop] at hmem
      rcases List.mem_append.mp hmem with h | h
      · rcases List.mem_append.mp h with h2 | h2
        · rcases List.mem_append.mp h2 with h3 | h3
          · exact h3
          · exfalso
            rcases branchTimeSync_events env _ _ h3 with h4 | h4
            · exact absurd h4 (by decide)
            · exact Event.noConfusion h4
        · exfalso
          rcases wifiPollCheck_events env _ _ h2 with h4 | h4 <;>
            exact Event.noConfusion h4
      · exfalso
        rw [hdec] at h
        rcases List.mem_append.mp h with h2 | h2
        · rcases hl1 _ h2 with h4 | h4 | h4 <;> exact Event.noConfusion h4
        · obtain ⟨str, h4⟩ := hl2 _ h2
          exact Event.noConfusion h4
    obtain ⟨hgt, heq⟩ := hAw.1 hmem2
    refine ⟨hgt, ?_⟩
    simp only [loop]
    rw [hDp.2.1, hCp.2.2.1, hBp.2.2.2.1, heq]
  · intro hnone
    have hmem2 : Event.drawBootFrame BootScreen.wifiConnecting ∉
        (branchConnecting env s).2 := by
      intro h
      exact hnone (by
        simp only [loop]
        exact List.mem_append.mpr (Or.inl (List.mem_append.mpr
          (Or.inl (List.mem_append.mpr (Or.inl h))))))
    have heq := hAw.2 hmem2
    simp only [loop]
    rw [hDp.2.1, hCp.2.2.1, hBp.2.2.2.1, heq]

/-- State for the C7 counterexample: freshly in `WIFI_CONNECTING`, both
boot-draw timestamps stale. -/
def doubleDrawState : SketchState :=
  { initialState with uiState := UiState.WIFI_CONNECTING }

/-- Environment for the C7 counterexample: the link comes up at
`now = 300`. -/
def doubleDrawEnv : TickEnv :=
  { now := 300, wifiConn1 := true, wifiConn2 := true, epochTime := 0,
    pumpOk := true, beginRunning := true, ipAddr := "" }

/-- C7 counterexample: in a single tick (so zero milliseconds apart, far
below the 250 ms minimum interval of the sync screen) the sync screen is
presented twice — once directly by the `WIFI_CONNECTING → TIME_SYNC`
transition logic, outside any throttle, and once by the `TIME_SYNC`
branch's own throttled redraw.  This falsifies both the minimum-interval
and the throttle-is-the-only-mechanism parts of the claim. -/
theorem render_throttle_counterexample :
    (loop doubleDrawEnv doubleDrawState).2.count
      (Event.drawBootFrame BootScreen.syncTime) = 2 := by
  decide

/-- State for the C7 witness: `READY`, render throttle stale. -/
def throttleState : SketchState :=
  { initialState with uiState := UiState.READY, mp3 := some true }

/-- Environment for the C7 witness. -/
def throttleEnv : TickEnv :=
  { now := 300, wifiConn1 := false, wifiConn2 := true, epochTime := 0,
    pumpOk := true, beginRunning := true, ipAddr := "" }

/-- Witness for the amended C7 at a concrete input. -/
theorem render_throttle_amended_witness :
    elapsed throttleEnv.now throttleState.lastTimeDraw > TIME_REFRESH_MS ∧
    (loop throttleEnv throttleState).1.lastTimeDraw = throttleEnv.now :=
  (render_throttle_amended throttleEnv throttleState).1
    ⟨"STREAM: playing", by decide⟩

/-- C9 (amended): a metadata arrival recorded by `MDCallback` at time `t`
stamps the record (`showMeta` set, `lastMetaTs = t`, the title text
stored); while the stream session is running, the `drawReady` status line
within the display window (`elapsed < META_SHOW_MS`) shows the metadata
text, and at any time at or past the window's end (absent a newer arrival)
it reverts to the generic label — `STREAM: playing` if the session is
running, `STREAM: stopped` otherwise.  (The unamended claim promised the
metadata on every render inside the window; the code shows it only while
the session is also running — see the counterexample.) -/
theorem metadata_window_amended (s : SketchState) (now t : Nat) (str : String) :
    ((MDCallback s "StreamTitle" str t).showMeta = true ∧
     (MDCallback s "StreamTitle" str t).lastMetaTs = t ∧
     (MDCallback s "StreamTitle" str t).icyTitle = str) ∧
    (s.mp3 = some true → s.showMeta = true →
      elapsed now s.lastMetaTs < META_SHOW_MS →
      readyStatusLine s now = metaLine s) ∧
    (elapsed now s.lastMetaTs ≥ META_SHOW_MS →
      readyStatusLine s now =
        if s.mp3 = some true then "STREAM: playing" else "STREAM: stopped") := by
  refine ⟨?_, ?_, ?_⟩
  · unfold MDCallback
    rw [if_pos (show equalsIgnoreCase "StreamTitle" "StreamTitle" = true by decide)]
    exact ⟨rfl, rfl, rfl⟩
  · intro hm hsm hlt
    simp [readyStatusLine, hm, hsm, hlt]
  · intro hge
    have hnlt : ¬ elapsed now s.lastMetaTs < META_SHOW_MS := not_lt.mpr hge
    rcases hm : s.mp3 with _ | r
    · simp [readyStatusLine, hm]
    · cases r
      · simp [readyStatusLine, hm]
      · simp [readyStatusLine, hm, hnlt]

/-- State for the C9 counterexample: `READY`, session running, metadata
arrived through `MDCallback` at time 0. -/
def metaStoppedState : SketchState :=
  MDCallback { initialState with uiState := UiState.READY, mp3 := some true }
    "StreamTitle" "Song" 0

/-- Environment for the C9 counterexample: the pump fails at `now = 1000`,
well inside the 6000 ms metadata window. -/
def metaStoppedEnv : TickEnv :=
  { now := 1000, wifiConn1 := false, wifiConn2 := true, epochTime := 0,
    pumpOk := false, beginRunning := true, ipAddr := "" }

/-- C9 counterexample: metadata arrives at `t = 0`; the render at
`now = 1000` lies inside the display window, yet the presented status line
is `STREAM: stopped` rather than the metadata, because the pump failed in
the same tick and metadata is shown only while the session is running.
So "shown on every render between `t` and `t + window`" is false. -/
theorem metadata_window_counterexample :
    metaStoppedState.showMeta = true ∧
    metaStoppedState.lastMetaTs = 0 ∧
    elapsed metaStoppedEnv.now metaStoppedState.lastMetaTs < META_SHOW_MS ∧
    Event.drawReadyFrame "STREAM: stopped" ∈
      (loop metaStoppedEnv metaStoppedState).2 := by
  decide

/-- State for the C9 witness: running session with metadata arrived at
time 0. -/
def metaShownState : SketchState :=
  MDCallback { initialState with uiState := UiState.READY, mp3 := some true }
    "StreamTitle" "Tune" 0

/-- Witness for the amended C9 at a concrete input: 100 ms after arrival
the status line shows the metadata text. -/
theorem metadata_window_amended_witness :
    readyStatusLine metaShownState 100 = metaLine metaShownState :=
  (metadata_window_amended metaShownState 100 0 "x").2.1 (by decide) (by decide)
    (by decide)

/-- C10: the invariant "whenever the phase is `READY`, the mp3 generator
handle is non-null" is preserved by every tick — entry into `READY` always
passes through `startStream`, which unconditionally installs a fresh
generator, and no path resets the handle to null — and it holds after
`setup` (which ends in `WIFI_CONNECTING`); consequently the supervisor's
null guard never disables supervision in `READY`: with the link up, a
running generator is always pumped, and a stopped one is restarted exactly
when the retry cooldown has elapsed. -/
theorem mp3_handle_nonnull_in_ready (env : TickEnv) (s : SketchState) (t : Nat) :
    ((s.uiState = UiState.READY → s.mp3.isSome = true) →
      (loop env s).1.uiState = UiState.READY →
      (loop env s).1.mp3.isSome = true) ∧
    ((setupState t).uiState = UiState.READY →
      (setupState t).mp3.isSome = true) ∧
    (s.uiState = UiState.READY → env.wifiConn2 = true → s.mp3 = some true →
      Event.mp3Pump ∈ (loop env s).2) ∧
    (s.uiState = UiState.READY → env.wifiConn2 = true → s.mp3 = some false →
      (Event.streamStart ∈ (loop env s).2 ↔
        elapsed env.now s.lastTry > STREAM_RETRY_MS)) := by
  refine ⟨?_, ?_, ?_, ?_⟩
  · intro hinv hready
    have hd := branchReady_uiState env
      (wifiPollCheck env (branchTimeSync env (branchConnecting env s).1).1).1
    have hcready : (wifiPollCheck env (branchTimeSync env
        (branchConnecting env s).1).1).1.uiState = UiState.READY := by
      rw [← hd]
      simpa [loop] using hready
    have hc := wifiPollCheck_ready_mp3 env
      (branchTimeSync env (branchConnecting env s).1).1 hcready
    have hfin : (wifiPollCheck env (branchTimeSync env
        (branchConnecting env s).1).1).1.mp3.isSome = true →
        (loop env s).1.mp3.isSome = true := by
      intro hsome
      have := branchReady_mp3_isSome env _ hsome
      simpa [loop] using this
    rcases branchTimeSync_ready_mp3 env (branchConnecting env s).1 hc.2 with
      ⟨hbui, hbmp3⟩ | hbmp3
    · have haui : s.uiState = UiState.READY := by
        rcases branchConnecting_uiState env s with h | ⟨h1, h2⟩
        · rw [← h]; exact hbui
        · rw [h2] at hbui; exact absurd hbui (by decide)
      refine hfin ?_
      rw [hc.1, hbmp3, (branchConnecting_preserves env s).2.2.2.2.1]
      exact hinv haui
    · refine hfin ?_
      rw [hc.1]
      exact hbmp3
  · intro h
    simp [setupState, connectWifi, drawBootStep, initialState] at h
  · intro hui hconn hmp3
    have hA : branchConnecting env s = (s, []) :=
      branchConnecting_skip env s (by rw [hui]; simp)
    have hB : branchTimeSync env s = (s, []) :=
      branchTimeSync_skip env s (by rw [hui]; simp)
    have hC := wifiPollCheck_conn env s hconn
    have hcui : (wifiPollCheck env s).1.uiState = UiState.READY := by
      rw [hC.1, hui]
    have hcmp3 : (wifiPollCheck env s).1.mp3 = some true := by
      rw [hC.2.2.1, hmp3]
    have hmem := branchReady_pump_mem env (wifiPollCheck env s).1 hcui hcmp3
    simp only [loop, hA, hB, hC.2.2.2]
    simpa using hmem
  · intro hui hconn hmp3
    have hA : branchConnecting env s = (s, []) :=
      branchConnecting_skip env s (by rw [hui]; simp)
    have hB : branchTimeSync env s = (s, []) :=
      branchTimeSync_skip env s (by rw [hui]; simp)
    have hC := wifiPollCheck_conn env s hconn
    have hcui : (wifiPollCheck env s).1.uiState = UiState.READY := by
      rw [hC.1, hui]
    have hcmp3 : (wifiPollCheck env s).1.mp3 = some false := by
      rw [hC.2.2.1, hmp3]
    have hctry : (wifiPollCheck env s).1.lastTry = s.lastTry :=
      (wifiPollCheck_preserves env s).2.1
    constructor
    · intro hmem
      by_contra hcool
      have hd := branchReady_no_restart env (wifiPollCheck env s).1 hcui hcmp3
        (by rw [hctry]; exact hcool)
      refine hd.1 ?_
      simp only [loop, hA, hB, hC.2.2.2] at hmem
      simpa using hmem
    · intro hcool
      have hd := branchReady_restart env (wifiPollCheck env s).1 hcui hcmp3
        (by rw [hctry]; exact hcool)
      simp only [loop, hA, hB, hC.2.2.2]
      simpa using hd.2.2.2

/-- State for the C10 witness: `READY` with a running generator. -/
def readyPumpState : SketchState :=
  { initialState with uiState := UiState.READY, mp3 := some true }

/-- Environment for the C10 witness. -/
def readyPumpEnv : TickEnv :=
  { now := 100, wifiConn1 := false, wifiConn2 := true, epochTime := 0,
    pumpOk := true, beginRunning := true, ipAddr := "" }

/-- Witness for C10 at a concrete input: the guard admits the pump. -/
theorem mp3_handle_nonnull_in_ready_witness :
    Event.mp3Pump ∈ (loop readyPumpEnv readyPumpState).2 :=
  (mp3_handle_nonnull_in_ready readyPumpEnv readyPumpState 0).2.2.1 rfl rfl rfl

end Radio
